import Mathlib

/-!
Shallow embedding of `src/sast_energy_monitor/cli.py`: a CLI that builds a
static-analysis scanner invocation (bandit or semgrep) from a (tool,
config-level) selection, wraps it with an external energy-measurement
executable (energibridge), executes the combined process, and classifies the
wrapped process's exit code.

Pure string/list manipulation is translated directly.  Interaction with the
operating system (filesystem lookups of bundled config files, `Path.resolve`,
`subprocess.run`) is parameterised by explicit environment records, so every
definition stays executable and the control flow of the Python source is
mirrored branch by branch.
-/

/-- Python exceptions raised by `build_scan_command` / `get_package_config_path`:
`FileNotFoundError` when a declared bundled config file is absent (the spec's
`ConfigNotFound`), `ValueError` for a (tool, config_level) selection outside
the supported table (the spec's `UnsupportedSelection`). -/
inductive PyError where
  | fileNotFoundError
  | valueError
deriving DecidableEq, Repr

/-- Environment record standing for the operating-system facilities used by the
Python source: `resolvePath s` models `str(Path(s).resolve())`, and
`configFile name` models the combination of `importlib.resources.files(...)`,
the `is_file()` check in `get_package_config_path`, and
`str(importlib.resources.as_file(ref).resolve())` in `build_scan_command` —
it returns the resolved absolute path of the bundled config file `name` when
that file exists, and `none` when it is absent. -/
structure CliEnv where
  resolvePath : String → String
  configFile : String → Option String

/-- The module-level table `BANDIT_CONFIG_FILES = {"loose": ".bandit_basic",
"strict": ".bandit"}`, as a lookup function. -/
def BANDIT_CONFIG_FILES (config_level : String) : Option String :=
  if config_level = "loose" then some ".bandit_basic"
  else if config_level = "strict" then some ".bandit"
  else none

/-- The module-level table `SEMGREP_CONFIG_FILES = {"loose": "semgrep.yml",
"strict": "p/bandit"}`, as a lookup function. -/
def SEMGREP_CONFIG_FILES (config_level : String) : Option String :=
  if config_level = "loose" then some "semgrep.yml"
  else if config_level = "strict" then some "p/bandit"
  else none

/-- `get_package_config_path`: returns the bundled config file for
`config_filename`, raising `FileNotFoundError` when it is absent (the source
also converts `ModuleNotFoundError` / `NotADirectoryError` into
`FileNotFoundError`, which `CliEnv.configFile = none` covers uniformly). -/
def get_package_config_path (env : CliEnv) (config_filename : String) :
    Except PyError String :=
  match env.configFile config_filename with
  | some p => .ok p
  | none => .error .fileNotFoundError

/-- `build_scan_command(tool, config_level, repo_path)`: builds the scanner
command STRING (the Python source returns an f-string with the config and repo
paths wrapped in double quotes, not an argument list).  Branch structure
mirrors the source: bandit looks up `BANDIT_CONFIG_FILES`, semgrep looks up
`SEMGREP_CONFIG_FILES`; the loose semgrep level resolves a bundled file while
the strict level passes the registry identifier `p/bandit` through verbatim. -/
def build_scan_command (env : CliEnv) (tool config_level repo_path : String) :
    Except PyError String :=
  let repo_path_str := env.resolvePath repo_path
  if tool = "bandit" then
    match BANDIT_CONFIG_FILES config_level with
    | none => .error .valueError
    | some config_filename =>
      match get_package_config_path env config_filename with
      | .error e => .error e
      | .ok config_path_str =>
        .ok ("bandit -c \"" ++ config_path_str ++ "\" -r \"" ++ repo_path_str ++ "\"")
  else if tool = "semgrep" then
    match SEMGREP_CONFIG_FILES config_level with
    | none => .error .valueError
    | some config_identifier =>
      if config_level = "loose" then
        match get_package_config_path env config_identifier with
        | .error e => .error e
        | .ok config_path_str =>
          .ok ("semgrep scan \"" ++ repo_path_str ++ "\" --verbose --config=" ++ config_path_str)
      else if config_level = "strict" then
        .ok ("semgrep scan \"" ++ repo_path_str ++ "\" --verbose --config=" ++ config_identifier)
      else .error .valueError
  else .error .valueError

/-- Characters treated as token separators by `shlex` (its `whitespace`
attribute is the four characters space, tab, carriage return, newline). -/
def isShlexWS (c : Char) : Bool :=
  decide (c = ' ' ∨ c = '\t' ∨ c = '\r' ∨ c = '\n')

/-- A character with no special meaning to `shlex.split` in POSIX mode:
not a double quote, not a single quote, not a backslash, not whitespace. -/
def niceChar (c : Char) : Bool :=
  decide (c ≠ '"' ∧ c ≠ '\'' ∧ c ≠ '\\' ∧ isShlexWS c = false)

/-- A string all of whose characters are `niceChar`. -/
def niceStr (s : String) : Bool := s.data.all niceChar

/-- Lexer mode of `shlex.read_token`: outside quotes, inside double quotes,
inside single quotes. -/
inductive SMode where
  | norm
  | dq
  | sq
deriving DecidableEq, Repr

/-- Character-level model of `shlex.split(s, posix=True)` (the source passes
`posix = (os.name != 'nt')`, and the program runs on a POSIX system).
Arguments: mode, remaining input, current token (`none` = no token started),
completed tokens in reverse order.  Returns `none` where Python raises
`ValueError` (unclosed quotation, or end of input directly after an escape
character).  Escape rules follow `shlex.read_token`: outside quotes a
backslash escapes any character; inside double quotes it escapes only `"` and
`\` and is otherwise kept literally; inside single quotes everything is
literal. -/
def shx : SMode → List Char → Option (List Char) → List (List Char) →
    Option (List (List Char))
  | .norm, [], none, acc => some acc.reverse
  | .norm, [], some t, acc => some (t :: acc).reverse
  | .dq, [], _, _ => none
  | .sq, [], _, _ => none
  | .norm, c :: cs, cur, acc =>
    if isShlexWS c then
      match cur with
      | none => shx .norm cs none acc
      | some t => shx .norm cs none (t :: acc)
    else if c = '"' then shx .dq cs (some (cur.getD [])) acc
    else if c = '\'' then shx .sq cs (some (cur.getD [])) acc
    else if c = '\\' then
      match cs with
      | [] => none
      | c2 :: cs2 => shx .norm cs2 (some (cur.getD [] ++ [c2])) acc
    else shx .norm cs (some (cur.getD [] ++ [c])) acc
  | .dq, c :: cs, cur, acc =>
    if c = '"' then shx .norm cs (some (cur.getD [])) acc
    else if c = '\\' then
      match cs with
      | [] => none
      | c2 :: cs2 =>
        if c2 = '"' ∨ c2 = '\\' then shx .dq cs2 (some (cur.getD [] ++ [c2])) acc
        else shx .dq cs2 (some (cur.getD [] ++ ['\\', c2])) acc
    else shx .dq cs (some (cur.getD [] ++ [c])) acc
  | .sq, c :: cs, cur, acc =>
    if c = '\'' then shx .norm cs (some (cur.getD [])) acc
    else shx .sq cs (some (cur.getD [] ++ [c])) acc
termination_by structural _ cs _ _ => cs

/-- `shlex.split(s, posix=True)` as used at line 135 of the source:
`none` models the `ValueError` branch that prints an internal error and calls
`sys.exit(1)`. -/
def shlexSplit (s : String) : Option (List String) :=
  (shx .norm s.data none []).map (fun ts => ts.map (fun cs => String.mk cs))

/-- `arg.strip('"')` from line 136 of the source: removes every leading and
trailing double-quote character of a token. -/
def stripQuotes (s : String) : String :=
  String.mk (((s.data.dropWhile (fun c => c = '"')).reverse.dropWhile
    (fun c => c = '"')).reverse)

/-- The composition performed by `run_measurement` on the command string it
receives: `shlex.split` followed by `strip('"')` on each part (lines 135-136).
This is the scanner argument list that actually reaches `subprocess.run`. -/
def roundtrip (s : String) : Option (List String) :=
  (shlexSplit s).map (fun ps => ps.map stripQuotes)

/-- Characters stripped by Python's `str.strip()` with no argument. -/
def isPySpace (c : Char) : Bool :=
  decide (c = ' ' ∨ c = '\t' ∨ c = '\n' ∨ c = '\r' ∨ c = '\x0b' ∨ c = '\x0c')

/-- Python `s.strip()`: removes leading and trailing whitespace of the whole
string (used on the captured stdout before splitting it into lines). -/
def pyStrip (s : String) : String :=
  String.mk (((s.data.dropWhile isPySpace).reverse.dropWhile isPySpace).reverse)

/-- Helper for Python `str.splitlines()`: accumulates the current line and
splits at `\r\n`, `\n` or `\r`; a trailing line terminator produces no extra
empty line, and the empty string produces no lines. -/
def pySplitlinesL : List Char → List Char → List (List Char)
  | [], cur => if cur.isEmpty then [] else [cur]
  | '\r' :: '\n' :: rest, cur => cur :: pySplitlinesL rest []
  | '\n' :: rest, cur => cur :: pySplitlinesL rest []
  | '\r' :: rest, cur => cur :: pySplitlinesL rest []
  | c :: rest, cur => pySplitlinesL rest (cur ++ [c])
termination_by structural cs _ => cs

/-- Python `s.splitlines()`. -/
def pySplitlines (s : String) : List String :=
  (pySplitlinesL s.data []).map (fun cs => String.mk cs)

/-- Whether the character list `pat` occurs at the start of `s`. -/
def startsWithChars : List Char → List Char → Bool
  | [], _ => true
  | _ :: _, [] => false
  | p :: ps, c :: cs => p = c && startsWithChars ps cs

/-- Whether the character list `pat` occurs anywhere inside `s` (Python's
`pat in s` on strings). -/
def containsChars : List Char → List Char → Bool
  | pat, [] => pat.isEmpty
  | pat, c :: cs => startsWithChars pat (c :: cs) || containsChars pat cs

/-- The literal summary marker emitted by the energy-measurement executable,
searched for with `"Energy consumption in joules:" in line` in the source. -/
def ENERGY_MARKER : String := "Energy consumption in joules:"

/-- Python `ENERGY_MARKER in line`. -/
def containsMarker (line : String) : Bool :=
  containsChars ENERGY_MARKER.data line.data

/-- The per-line reporting of lines 166-172 and 200-208 of the source: the
captured stdout is stripped, split into lines, and each line is printed —
highlighted (tag `true`, magenta) when it contains the energy marker, plain
(tag `false`) otherwise.  The emitted text is the line itself. -/
def tagLines (stdout : String) : List (Bool × String) :=
  (pySplitlines (pyStrip stdout)).map (fun l => (containsMarker l, l))

/-- The classification of a measurement run from the spec's data model:
`MeasurementResult.classification ∈ {Success, FindingsDetected, ToolError,
UnexpectedFailure}`. -/
inductive Classification where
  | Success
  | FindingsDetected
  | ToolError
  | UnexpectedFailure
deriving DecidableEq, Repr

/-- Outcome of `subprocess.run(command_list, check=True, ...)`:
`completed rc out err` models a child process that ran to completion with exit
code `rc` (a `CalledProcessError` carrying `stdout`/`stderr` when `rc ≠ 0`),
`execNotFound` models the `FileNotFoundError` raised when the executable could
not be located, `pyException` models any other Python exception during
execution. -/
inductive LaunchOutcome where
  | completed (returncode : Int) (stdout stderr : String)
  | execNotFound
  | pyException
deriving DecidableEq, Repr

/-- Observable behaviour of one call to `run_measurement`:
whether `subprocess.run` was invoked, the flat argument list handed to it
(`shell=False`, so no shell ever interprets it), the classification of the
wrapped process's exit code, the tagged stdout lines printed by the reporting
step, `some 1` when the path called `sys.exit(1)` (`none` = returned
normally), and whether the temporary sample file was removed. -/
structure RunReport where
  commandLaunched : Bool
  execArgv : Option (List String)
  classification : Option Classification
  reportedLines : List (Bool × String)
  exitedWith : Option Nat
  tempFileDeleted : Bool
deriving DecidableEq, Repr

/-- The body of `run_measurement` (everything inside the
`with tempfile.NamedTemporaryFile(...)` block, lines 119-251).  The scan
command STRING is split with `shlex.split` (`sys.exit(1)` on a split error,
before any launch), each part is stripped of surrounding double quotes, the
energibridge wrapper arguments are prepended by list concatenation, and the
resulting flat list is executed; the exit code is then classified exactly in
the source's branch order: 0 → Success; bandit with code 2 → ToolError
(`sys.exit(1)`); bandit or semgrep with code 1 → FindingsDetected (normal
return); anything else → UnexpectedFailure (`sys.exit(1)`). -/
def run_measurement_body (energibridge_abs temp_file_abs scan_cmd tool_name : String)
    (launch : List String → LaunchOutcome) : RunReport :=
  let base_command_list := [energibridge_abs, "-o", temp_file_abs, "--summary"]
  match shlexSplit scan_cmd with
  | none =>
      { commandLaunched := false, execArgv := none, classification := none,
        reportedLines := [], exitedWith := some 1, tempFileDeleted := false }
  | some parts =>
      let scan_cmd_parts := parts.map stripQuotes
      let command_list := base_command_list ++ scan_cmd_parts
      match launch command_list with
      | .completed rc stdout _stderr =>
          if rc = 0 then
            { commandLaunched := true, execArgv := some command_list,
              classification := some .Success, reportedLines := tagLines stdout,
              exitedWith := none, tempFileDeleted := false }
          else if tool_name = "bandit" ∧ rc = 2 then
            { commandLaunched := true, execArgv := some command_list,
              classification := some .ToolError, reportedLines := [],
              exitedWith := some 1, tempFileDeleted := false }
          else if (tool_name = "bandit" ∨ tool_name = "semgrep") ∧ rc = 1 then
            { commandLaunched := true, execArgv := some command_list,
              classification := some .FindingsDetected,
              reportedLines := tagLines stdout,
              exitedWith := none, tempFileDeleted := false }
          else
            { commandLaunched := true, execArgv := some command_list,
              classification := some .UnexpectedFailure, reportedLines := [],
              exitedWith := some 1, tempFileDeleted := false }
      | .execNotFound =>
          { commandLaunched := true, execArgv := some command_list,
            classification := none, reportedLines := [],
            exitedWith := some 1, tempFileDeleted := false }
      | .pyException =>
          { commandLaunched := true, execArgv := some command_list,
            classification := none, reportedLines := [],
            exitedWith := some 1, tempFileDeleted := false }

/-- `run_measurement`: the temporary sample file is allocated with
`tempfile.NamedTemporaryFile(delete=True)` in a `with` block, whose `__exit__`
removes the file however the block is left — normal return, or the
`SystemExit` raised by `sys.exit(1)` on every failure path (`SystemExit`
derives from `BaseException`, so none of the source's `except` clauses absorb
it).  The wrapper therefore marks the file deleted on every path of the
body. -/
def run_measurement (energibridge_abs temp_file_abs scan_cmd tool_name : String)
    (launch : List String → LaunchOutcome) : RunReport :=
  { run_measurement_body energibridge_abs temp_file_abs scan_cmd tool_name launch
      with tempFileDeleted := true }

/-- Observable behaviour of `main()` after argument parsing: the process exit
code (0 when it falls off the end normally), whether `subprocess.run` was ever
invoked, and the classification of the run if one happened. -/
structure MainReport where
  exitCode : Nat
  launchedProcess : Bool
  runClass : Option Classification
deriving DecidableEq, Repr

/-- `main()` after `argparse` (lines 269-300): validate that the energibridge
path is a file and the repo path a directory (`sys.exit(1)` otherwise, before
anything is built or launched), resolve the repo path, build the scan command
(any `FileNotFoundError`/`ValueError` is caught and turned into
`sys.exit(1)`, again before any launch), then run the measurement; a normal
return from `run_measurement` reaches the end of `main`, exit code 0. -/
def pymain (env : CliEnv) (energibridge_is_file repo_is_dir : Bool)
    (energibridge_path repo_path tool config_level temp_file : String)
    (launch : List String → LaunchOutcome) : MainReport :=
  if energibridge_is_file = false then
    { exitCode := 1, launchedProcess := false, runClass := none }
  else if repo_is_dir = false then
    { exitCode := 1, launchedProcess := false, runClass := none }
  else
    match build_scan_command env tool config_level (env.resolvePath repo_path) with
    | .error _ =>
        { exitCode := 1, launchedProcess := false, runClass := none }
    | .ok scan_cmd_str =>
        let r := run_measurement (env.resolvePath energibridge_path) temp_file
          scan_cmd_str tool launch
        { exitCode := r.exitedWith.getD 0, launchedProcess := r.commandLaunched,
          runClass := r.classification }

/-- A concrete environment for witnesses and counterexamples: path resolution
is the identity and every bundled config file exists at `/cfg`. -/
def demoEnv : CliEnv := ⟨fun s => s, fun _ => some "/cfg"⟩

/-! ### Stepping lemmas for the `shlex` model -/

lemma shx_norm_nice (c : Char) (h : niceChar c = true) (cs : List Char)
    (cur : Option (List Char)) (acc : List (List Char)) :
    shx .norm (c :: cs) cur acc = shx .norm cs (some (cur.getD [] ++ [c])) acc := by
  have h' := of_decide_eq_true h
  conv_lhs => rw [shx.eq_def]
  simp only [h'.1, h'.2.1, h'.2.2.1, h'.2.2.2, if_false, ite_false,
    Bool.false_eq_true, if_neg, reduceCtorEq]

lemma shx_norm_ws (c : Char) (h : isShlexWS c = true) (cs : List Char)
    (t : List Char) (acc : List (List Char)) :
    shx .norm (c :: cs) (some t) acc = shx .norm cs none (t :: acc) := by
  conv_lhs => rw [shx.eq_def]
  simp only [h, if_true, ite_true]

lemma shx_norm_dqopen (cs : List Char) (cur : Option (List Char))
    (acc : List (List Char)) :
    shx .norm ('"' :: cs) cur acc = shx .dq cs (some (cur.getD [])) acc := by
  conv_lhs => rw [shx.eq_def]
  simp [isShlexWS]

lemma shx_dq_nice (c : Char) (h : niceChar c = true) (cs : List Char)
    (cur : Option (List Char)) (acc : List (List Char)) :
    shx .dq (c :: cs) cur acc = shx .dq cs (some (cur.getD [] ++ [c])) acc := by
  have h' := of_decide_eq_true h
  conv_lhs => rw [shx.eq_def]
  simp only [h'.1, h'.2.2.1, if_false, ite_false, Bool.false_eq_true, if_neg,
    reduceCtorEq]

lemma shx_dq_close (cs : List Char) (cur : Option (List Char))
    (acc : List (List Char)) :
    shx .dq ('"' :: cs) cur acc = shx .norm cs (some (cur.getD [])) acc := by
  conv_lhs => rw [shx.eq_def]
  simp

lemma shx_norm_nil (t : List Char) (acc : List (List Char)) :
    shx .norm [] (some t) acc = some ((t :: acc).reverse) := by
  rw [shx.eq_def]

/-- Inside double quotes, a run of ordinary characters is appended to the
current token verbatim. -/
lemma shx_dq_run (xs : List Char) (h : xs.all niceChar = true) (cs : List Char)
    (t : List Char) (acc : List (List Char)) :
    shx .dq (xs ++ cs) (some t) acc = shx .dq cs (some (t ++ xs)) acc := by
  induction xs generalizing t with
  | nil => simp
  | cons c xs ih =>
    simp only [List.all_cons, Bool.and_eq_true] at h
    rw [List.cons_append, shx_dq_nice c h.1, Option.getD_some, ih h.2]
    simp

/-- Outside quotes, a run of ordinary characters ending the input extends the
current token and finishes the split. -/
lemma shx_norm_end (xs : List Char) (h : xs.all niceChar = true)
    (t : List Char) (acc : List (List Char)) :
    shx .norm xs (some t) acc = some (((t ++ xs) :: acc).reverse) := by
  induction xs generalizing t with
  | nil => simp [shx_norm_nil]
  | cons c xs ih =>
    simp only [List.all_cons, Bool.and_eq_true] at h
    rw [shx_norm_nice c h.1, Option.getD_some, ih h.2]
    simp

/-- Splitting the exact character shape produced by `build_scan_command` for
bandit, `bandit -c "<C>" -r "<R>"`, when the two interpolated paths contain no
shlex-special characters. -/
lemma shx_bandit (C R : List Char) (hC : C.all niceChar = true)
    (hR : R.all niceChar = true) :
    shx .norm
      (['b','a','n','d','i','t',' ','-','c',' ','"'] ++ (C ++
        (['"',' ','-','r',' ','"'] ++ (R ++ ['"'])))) none [] =
      some [['b','a','n','d','i','t'], ['-','c'], C, ['-','r'], R] := by
  simp only [List.cons_append, List.nil_append]
  rw [shx_norm_nice 'b' (by decide), shx_norm_nice 'a' (by decide),
    shx_norm_nice 'n' (by decide), shx_norm_nice 'd' (by decide),
    shx_norm_nice 'i' (by decide), shx_norm_nice 't' (by decide),
    shx_norm_ws ' ' (by decide), shx_norm_nice '-' (by decide),
    shx_norm_nice 'c' (by decide), shx_norm_ws ' ' (by decide),
    shx_norm_dqopen, shx_dq_run C hC, shx_dq_close,
    shx_norm_ws ' ' (by decide), shx_norm_nice '-' (by decide),
    shx_norm_nice 'r' (by decide), shx_norm_ws ' ' (by decide),
    shx_norm_dqopen, shx_dq_run R hR, shx_dq_close, shx_norm_nil]
  simp

/-- Splitting the exact character shape produced by `build_scan_command` for
semgrep, `semgrep scan "<R>" --verbose --config=<X>`, when the interpolated
repo path and configuration reference contain no shlex-special characters. -/
lemma shx_semgrep (R X : List Char) (hR : R.all niceChar = true)
    (hX : X.all niceChar = true) :
    shx .norm
      (['s','e','m','g','r','e','p',' ','s','c','a','n',' ','"'] ++ (R ++
        (['"',' ','-','-','v','e','r','b','o','s','e',' ',
          '-','-','c','o','n','f','i','g','='] ++ X))) none [] =
      some [['s','e','m','g','r','e','p'], ['s','c','a','n'], R,
        ['-','-','v','e','r','b','o','s','e'],
        ['-','-','c','o','n','f','i','g','='] ++ X] := by
  simp only [List.cons_append, List.nil_append]
  rw [shx_norm_nice 's' (by decide), shx_norm_nice 'e' (by decide),
    shx_norm_nice 'm' (by decide), shx_norm_nice 'g' (by decide),
    shx_norm_nice 'r' (by decide), shx_norm_nice 'e' (by decide),
    shx_norm_nice 'p' (by decide), shx_norm_ws ' ' (by decide),
    shx_norm_nice 's' (by decide), shx_norm_nice 'c' (by decide),
    shx_norm_nice 'a' (by decide), shx_norm_nice 'n' (by decide),
    shx_norm_ws ' ' (by decide), shx_norm_dqopen, shx_dq_run R hR,
    shx_dq_close, shx_norm_ws ' ' (by decide),
    shx_norm_nice '-' (by decide), shx_norm_nice '-' (by decide),
    shx_norm_nice 'v' (by decide), shx_norm_nice 'e' (by decide),
    shx_norm_nice 'r' (by decide), shx_norm_nice 'b' (by decide),
    shx_norm_nice 'o' (by decide), shx_norm_nice 's' (by decide),
    shx_norm_nice 'e' (by decide), shx_norm_ws ' ' (by decide),
    shx_norm_nice '-' (by decide), shx_norm_nice '-' (by decide),
    shx_norm_nice 'c' (by decide), shx_norm_nice 'o' (by decide),
    shx_norm_nice 'n' (by decide), shx_norm_nice 'f' (by decide),
    shx_norm_nice 'i' (by decide), shx_norm_nice 'g' (by decide),
    shx_norm_nice '=' (by decide), shx_norm_end X hX]
  simp

/-! ### Quote stripping and the full round trip -/

lemma dropWhile_quote_of_nice (l : List Char) (h : l.all niceChar = true) :
    l.dropWhile (fun c => c = '"') = l := by
  cases l with
  | nil => rfl
  | cons c cs =>
    simp only [List.all_cons, Bool.and_eq_true] at h
    have h' := of_decide_eq_true h.1
    simp [List.dropWhile, h'.1]

/-- `strip('"')` does not change a token containing no double quote. -/
lemma stripQuotes_nice (s : String) (h : niceStr s = true) :
    stripQuotes s = s := by
  unfold niceStr at h
  unfold stripQuotes
  rw [dropWhile_quote_of_nice s.data h,
    dropWhile_quote_of_nice s.data.reverse (by simpa using h),
    List.reverse_reverse]

/-- Round trip of the bandit command string: `shlex.split` followed by
`strip('"')` recovers the five intended scanner arguments when the config and
repo paths contain no shlex-special characters. -/
lemma roundtrip_bandit (cfg repoR : String) (hc : niceStr cfg = true)
    (hr : niceStr repoR = true) :
    roundtrip ("bandit -c \"" ++ cfg ++ "\" -r \"" ++ repoR ++ "\"") =
      some ["bandit", "-c", cfg, "-r", repoR] := by
  have hdata : ("bandit -c \"" ++ cfg ++ "\" -r \"" ++ repoR ++ "\"").data
      = ['b','a','n','d','i','t',' ','-','c',' ','"'] ++ (cfg.data ++
        (['"',' ','-','r',' ','"'] ++ (repoR.data ++ ['"']))) := by
    simp [String.data_append]
  unfold roundtrip shlexSplit
  rw [hdata, shx_bandit cfg.data repoR.data hc hr]
  simp only [Option.map_some', List.map_cons, List.map_nil]
  rw [show String.mk ['b','a','n','d','i','t'] = "bandit" from rfl,
    show String.mk ['-','c'] = "-c" from rfl,
    show String.mk ['-','r'] = "-r" from rfl,
    show String.mk cfg.data = cfg from rfl,
    show String.mk repoR.data = repoR from rfl]
  rw [show stripQuotes "bandit" = "bandit" from by decide,
    show stripQuotes "-c" = "-c" from by decide,
    show stripQuotes "-r" = "-r" from by decide,
    stripQuotes_nice cfg hc, stripQuotes_nice repoR hr]

/-- Round trip of the semgrep command string: `shlex.split` followed by
`strip('"')` recovers the five intended scanner arguments when the config
reference and repo path contain no shlex-special characters. -/
lemma roundtrip_semgrep (repoR x : String) (hr : niceStr repoR = true)
    (hx : niceStr x = true) :
    roundtrip ("semgrep scan \"" ++ repoR ++ "\" --verbose --config=" ++ x) =
      some ["semgrep", "scan", repoR, "--verbose", "--config=" ++ x] := by
  have hdata : ("semgrep scan \"" ++ repoR ++ "\" --verbose --config=" ++ x).data
      = ['s','e','m','g','r','e','p',' ','s','c','a','n',' ','"'] ++ (repoR.data ++
        (['"',' ','-','-','v','e','r','b','o','s','e',' ',
          '-','-','c','o','n','f','i','g','='] ++ x.data)) := by
    simp [String.data_append]
  unfold roundtrip shlexSplit
  rw [hdata, shx_semgrep repoR.data x.data hr hx]
  simp only [Option.map_some', List.map_cons, List.map_nil]
  have hcfgx : niceStr ("--config=" ++ x) = true := by
    unfold niceStr at hx ⊢
    simp [String.data_append, List.all_append, hx]
    decide
  rw [show String.mk ['s','e','m','g','r','e','p'] = "semgrep" from rfl,
    show String.mk ['s','c','a','n'] = "scan" from rfl,
    show String.mk ['-','-','v','e','r','b','o','s','e'] = "--verbose" from rfl,
    show String.mk repoR.data = repoR from rfl,
    show String.mk (['-','-','c','o','n','f','i','g','='] ++ x.data)
      = "--config=" ++ x from String.ext (by simp [String.data_append])]
  rw [show stripQuotes "semgrep" = "semgrep" from by decide,
    show stripQuotes "scan" = "scan" from by decide,
    show stripQuotes "--verbose" = "--verbose" from by decide,
    stripQuotes_nice repoR hr, stripQuotes_nice ("--config=" ++ x) hcfgx]

/-! ### Field transfer between `run_measurement` and its body -/

lemma run_classification_eq (eb tmp cmd tool : String)
    (launch : List String → LaunchOutcome) :
    (run_measurement eb tmp cmd tool launch).classification =
      (run_measurement_body eb tmp cmd tool launch).classification := rfl

lemma run_execArgv_eq (eb tmp cmd tool : String)
    (launch : List String → LaunchOutcome) :
    (run_measurement eb tmp cmd tool launch).execArgv =
      (run_measurement_body eb tmp cmd tool launch).execArgv := rfl

lemma run_exitedWith_eq (eb tmp cmd tool : String)
    (launch : List String → LaunchOutcome) :
    (run_measurement eb tmp cmd tool launch).exitedWith =
      (run_measurement_body eb tmp cmd tool launch).exitedWith := rfl

lemma run_reportedLines_eq (eb tmp cmd tool : String)
    (launch : List String → LaunchOutcome) :
    (run_measurement eb tmp cmd tool launch).reportedLines =
      (run_measurement_body eb tmp cmd tool launch).reportedLines := rfl

lemma run_commandLaunched_eq (eb tmp cmd tool : String)
    (launch : List String → LaunchOutcome) :
    (run_measurement eb tmp cmd tool launch).commandLaunched =
      (run_measurement_body eb tmp cmd tool launch).commandLaunched := rfl

/-! ### Claim C8 -/

/-- C8: on every exit path of `run_measurement` — Success, FindingsDetected,
ToolError, UnexpectedFailure, shlex split failure, launch failure, or any
other exception, including the paths that terminate the process via
`sys.exit(1)` — the temporary sample file is removed before the function
returns or the process exits, because it is scoped by the
`with tempfile.NamedTemporaryFile(delete=True)` block. -/
theorem C8_temp_file_always_deleted (eb tmp scan_cmd tool : String)
    (launch : List String → LaunchOutcome) :
    (run_measurement eb tmp scan_cmd tool launch).tempFileDeleted = true := rfl

/-! ### Claim C4 -/

/-- C4: whenever the scan command string splits successfully, the argument
list handed to `subprocess.run` is exactly the energibridge executable,
`-o`, the temporary file path and `--summary`, followed by the scanner's
argument list, combined by list concatenation; it is executed as a single
child process with `shell=False` (the model's `launch` consumes the flat
list directly, with no shell interpretation). -/
theorem C4_wrapper_argument_list (eb tmp scan_cmd tool : String)
    (launch : List String → LaunchOutcome) (parts : List String)
    (hsplit : shlexSplit scan_cmd = some parts) :
    (run_measurement eb tmp scan_cmd tool launch).execArgv =
      some ([eb, "-o", tmp, "--summary"] ++ parts.map stripQuotes) := by
  rw [run_execArgv_eq]
  unfold run_measurement_body
  rw [hsplit]
  cases h : launch ([eb, "-o", tmp, "--summary"] ++ parts.map stripQuotes) with
  | completed rc out err => simp only [h]; split_ifs <;> rfl
  | execNotFound => simp only [h]
  | pyException => simp only [h]

/-- Witness for C4 at a concrete input. -/
theorem C4_wrapper_argument_list_witness :
    shlexSplit "bandit -r \"x\"" = some ["bandit", "-r", "x"] ∧
    (run_measurement "/eb" "/tmp/s.csv" "bandit -r \"x\"" "bandit"
        (fun _ => .completed 0 "" "")).execArgv =
      some ["/eb", "-o", "/tmp/s.csv", "--summary", "bandit", "-r", "x"] :=
  ⟨by decide,
   by
    rw [C4_wrapper_argument_list "/eb" "/tmp/s.csv" "bandit -r \"x\"" "bandit"
      (fun _ => .completed 0 "" "") ["bandit", "-r", "x"] (by decide)]
    decide⟩

/-! ### Claim C1 -/

/-- C1: for every wrapped-process exit code `c` and every supported tool,
the classification is: 0 → Success; 1 → FindingsDetected for both tools;
2 → ToolError for bandit and UnexpectedFailure for semgrep; any other
nonzero code → UnexpectedFailure for both. -/
theorem C1_exit_code_classification (tool scan_cmd eb tmp out err : String)
    (c : Int) (parts : List String)
    (htool : tool = "bandit" ∨ tool = "semgrep")
    (hsplit : shlexSplit scan_cmd = some parts) :
    ((c = 0 → (run_measurement eb tmp scan_cmd tool
        (fun _ => .completed c out err)).classification = some .Success) ∧
     (c = 1 → (run_measurement eb tmp scan_cmd tool
        (fun _ => .completed c out err)).classification = some .FindingsDetected) ∧
     (c = 2 → tool = "bandit" → (run_measurement eb tmp scan_cmd tool
        (fun _ => .completed c out err)).classification = some .ToolError) ∧
     (c = 2 → tool = "semgrep" → (run_measurement eb tmp scan_cmd tool
        (fun _ => .completed c out err)).classification = some .UnexpectedFailure) ∧
     (c ≠ 0 → c ≠ 1 → c ≠ 2 → (run_measurement eb tmp scan_cmd tool
        (fun _ => .completed c out err)).classification = some .UnexpectedFailure)) := by
  simp only [run_classification_eq]
  unfold run_measurement_body
  rw [hsplit]
  refine ⟨?_, ?_, ?_, ?_, ?_⟩
  · rintro rfl; simp
  · rintro rfl
    rcases htool with h | h <;> subst h <;> simp
  · rintro rfl rfl; simp
  · rintro rfl rfl; simp
  · intro h0 h1 h2
    simp [h0, h1, h2]

/-- Witness for C1 at a concrete input: bandit with exit code 2 is classified
as a ToolError. -/
theorem C1_exit_code_classification_witness :
    shlexSplit "bandit -r \"x\"" = some ["bandit", "-r", "x"] ∧
    (run_measurement "/eb" "/t" "bandit -r \"x\"" "bandit"
        (fun _ => .completed 2 "" "")).classification = some .ToolError :=
  ⟨by decide,
   (C1_exit_code_classification "bandit" "bandit -r \"x\"" "/eb" "/t" "" ""
      2 ["bandit", "-r", "x"] (Or.inl rfl) (by decide)).2.2.1 rfl rfl⟩

/-! ### Claim C2 -/

/-- Invariant of the runner: it arranges `sys.exit(1)` exactly on the paths
that are not Success or FindingsDetected, and never exits with any other
nonzero status. -/
lemma run_exit_invariant (eb tmp cmd tool : String)
    (launch : List String → LaunchOutcome) :
    (((run_measurement eb tmp cmd tool launch).exitedWith.getD 0 = 0) ↔
      ((run_measurement eb tmp cmd tool launch).classification =
          some .Success ∨
       (run_measurement eb tmp cmd tool launch).classification =
          some .FindingsDetected)) ∧
    ((run_measurement eb tmp cmd tool launch).exitedWith.getD 0 = 0 ∨
     (run_measurement eb tmp cmd tool launch).exitedWith.getD 0 = 1) := by
  simp only [run_exitedWith_eq, run_classification_eq]
  unfold run_measurement_body
  cases hs : shlexSplit cmd with
  | none => simp [hs]
  | some parts =>
    simp only [hs]
    cases h : launch ([eb, "-o", tmp, "--summary"] ++ parts.map stripQuotes) with
    | completed rc out err =>
      simp only [h]
      split_ifs <;> simp
    | execNotFound => simp [h]
    | pyException => simp [h]

/-- C2: the overall process exit code is 0 exactly when the run is classified
Success or FindingsDetected, and 1 on every setup error, build error,
ToolError, UnexpectedFailure or launch failure; in particular a
FindingsDetected run never produces a nonzero overall exit code, and no exit
code other than 0 and 1 ever occurs. -/
theorem C2_overall_exit_code (env : CliEnv) (ebIsFile repoIsDir : Bool)
    (ebPath repoPath tool level tempFile : String)
    (launch : List String → LaunchOutcome) :
    (((pymain env ebIsFile repoIsDir ebPath repoPath tool level tempFile
        launch).exitCode = 0) ↔
      ((pymain env ebIsFile repoIsDir ebPath repoPath tool level tempFile
          launch).runClass = some .Success ∨
       (pymain env ebIsFile repoIsDir ebPath repoPath tool level tempFile
          launch).runClass = some .FindingsDetected)) ∧
    ((pymain env ebIsFile repoIsDir ebPath repoPath tool level tempFile
        launch).exitCode = 0 ∨
     (pymain env ebIsFile repoIsDir ebPath repoPath tool level tempFile
        launch).exitCode = 1) := by
  unfold pymain
  by_cases hef : ebIsFile = false
  · simp [hef]
  · by_cases hrd : repoIsDir = false
    · simp [hef, hrd]
    · simp only [hef, hrd, if_false, ite_false, Bool.false_eq_true]
      cases hb : build_scan_command env tool level (env.resolvePath repoPath) with
      | error e => simp [hb]
      | ok scan_cmd =>
        simp only [hb]
        exact run_exit_invariant (env.resolvePath ebPath) tempFile scan_cmd tool launch

/-! ### Claim C5 -/

/-- C5: `build_scan_command` raises `FileNotFoundError` (the spec's
`ConfigNotFound`) if and only if the selection is one of the three
bundled-file pairs — (bandit, loose), (bandit, strict), (semgrep, loose) —
and the declared bundled file is absent; for (semgrep, strict) no filesystem
validation happens at all, the registry identifier `p/bandit` is passed
through verbatim into the command, and the build always succeeds. -/
theorem C5_config_not_found_iff (env : CliEnv) (tool level repo : String) :
    (build_scan_command env tool level repo = .error .fileNotFoundError ↔
      ((tool = "bandit" ∧ level = "loose" ∧
          env.configFile ".bandit_basic" = none) ∨
       (tool = "bandit" ∧ level = "strict" ∧
          env.configFile ".bandit" = none) ∨
       (tool = "semgrep" ∧ level = "loose" ∧
          env.configFile "semgrep.yml" = none))) ∧
    build_scan_command env "semgrep" "strict" repo =
      .ok ("semgrep scan \"" ++ env.resolvePath repo ++
        "\" --verbose --config=p/bandit") := by
  constructor
  · by_cases ht1 : tool = "bandit"
    · subst ht1
      by_cases hl1 : level = "loose"
      · subst hl1
        cases hc : env.configFile ".bandit_basic" with
        | none =>
          simp [build_scan_command, BANDIT_CONFIG_FILES,
            get_package_config_path, hc]
        | some p =>
          simp [build_scan_command, BANDIT_CONFIG_FILES,
            get_package_config_path, hc]
      · by_cases hl2 : level = "strict"
        · subst hl2
          cases hc : env.configFile ".bandit" with
          | none =>
            simp [build_scan_command, BANDIT_CONFIG_FILES,
              get_package_config_path, hc]
          | some p =>
            simp [build_scan_command, BANDIT_CONFIG_FILES,
              get_package_config_path, hc]
        · simp [build_scan_command, BANDIT_CONFIG_FILES, hl1, hl2]
    · by_cases ht2 : tool = "semgrep"
      · subst ht2
        by_cases hl1 : level = "loose"
        · subst hl1
          cases hc : env.configFile "semgrep.yml" with
          | none =>
            simp [build_scan_command, SEMGREP_CONFIG_FILES,
              get_package_config_path, hc, ht1]
          | some p =>
            simp [build_scan_command, SEMGREP_CONFIG_FILES,
              get_package_config_path, hc, ht1]
        · by_cases hl2 : level = "strict"
          · subst hl2
            simp [build_scan_command, SEMGREP_CONFIG_FILES, ht1, hl1]
          · simp [build_scan_command, SEMGREP_CONFIG_FILES, ht1, hl1, hl2]
      · simp [build_scan_command, ht1, ht2]
  · simp only [build_scan_command, SEMGREP_CONFIG_FILES]
    simp only [show ¬ (("semgrep" : String) = "bandit") from by decide,
      show (("strict" : String) = "loose") = False from by simp,
      show (("strict" : String) = "strict") = True from by simp,
      if_false, if_true, ite_true, ite_false]
    simp
    exact String.ext (by simp [String.data_append])

/-! ### Claim C6 -/

/-- C6: for every (tool, configLevel) pair outside the fixed supported table
{bandit, semgrep} × {loose, strict}, `build_scan_command` fails with
`ValueError` (the spec's `UnsupportedSelection`), and `main` with such a pair
never invokes `subprocess.run` — the failure happens before any child process
is launched; for every pair inside the table the lookup tables resolve to
exactly one configuration reference each. -/
theorem C6_unsupported_selection (env : CliEnv) (ebIsFile repoIsDir : Bool)
    (ebPath repoPath tempFile tool level repo : String)
    (launch : List String → LaunchOutcome)
    (h : ¬ ((tool = "bandit" ∨ tool = "semgrep") ∧
            (level = "loose" ∨ level = "strict"))) :
    build_scan_command env tool level repo = .error .valueError ∧
    (pymain env ebIsFile repoIsDir ebPath repoPath tool level tempFile
      launch).launchedProcess = false ∧
    BANDIT_CONFIG_FILES "loose" = some ".bandit_basic" ∧
    BANDIT_CONFIG_FILES "strict" = some ".bandit" ∧
    SEMGREP_CONFIG_FILES "loose" = some "semgrep.yml" ∧
    SEMGREP_CONFIG_FILES "strict" = some "p/bandit" := by
  have hbuild : ∀ r : String, build_scan_command env tool level r =
      .error .valueError := by
    intro r
    push_neg at h
    by_cases ht1 : tool = "bandit"
    · subst ht1
      rcases h (Or.inl rfl) with ⟨hl1, hl2⟩
      simp [build_scan_command, BANDIT_CONFIG_FILES, hl1, hl2]
    · by_cases ht2 : tool = "semgrep"
      · subst ht2
        rcases h (Or.inr rfl) with ⟨hl1, hl2⟩
        simp [build_scan_command, SEMGREP_CONFIG_FILES, ht1, hl1, hl2]
      · simp [build_scan_command, ht1, ht2]
  refine ⟨hbuild repo, ?_, rfl, rfl, rfl, rfl⟩
  unfold pymain
  by_cases hef : ebIsFile = false
  · simp [hef]
  · by_cases hrd : repoIsDir = false
    · simp [hef, hrd]
    · simp [hef, hrd, hbuild (env.resolvePath repoPath)]

/-- Witness for C6 at a concrete unsupported selection. -/
theorem C6_unsupported_selection_witness :
    (¬ ((("pylint" : String) = "bandit" ∨ ("pylint" : String) = "semgrep") ∧
        (("loose" : String) = "loose" ∨ ("loose" : String) = "strict"))) ∧
    build_scan_command demoEnv "pylint" "loose" "/repo" =
      .error .valueError ∧
    (pymain demoEnv true true "/eb" "/repo" "pylint" "loose" "/t"
      (fun _ => .completed 0 "" "")).launchedProcess = false :=
  ⟨by decide,
   ((C6_unsupported_selection demoEnv true true "/eb" "/repo" "/t" "pylint"
      "loose" "/repo" (fun _ => .completed 0 "" "") (by decide)).1),
   ((C6_unsupported_selection demoEnv true true "/eb" "/repo" "/t" "pylint"
      "loose" "/repo" (fun _ => .completed 0 "" "") (by decide)).2.1)⟩

/-! ### Claim C7 -/

/-- C7: for all four supported (tool, configLevel) pairs, the built command —
read back as the argument list that `run_measurement` extracts from it — has
the correct scanner executable name as its first element and contains, as one
argument, the target path as resolved by `Path.resolve` (an absolute path),
provided the resolved paths contain no shlex-special characters. -/
theorem C7_scanner_and_target_in_command (env : CliEnv) (repo cfg : String)
    (hr : niceStr (env.resolvePath repo) = true) (hc : niceStr cfg = true) :
    (env.configFile ".bandit_basic" = some cfg →
      ∃ cmd args, build_scan_command env "bandit" "loose" repo = .ok cmd ∧
        roundtrip cmd = some args ∧ args.head? = some "bandit" ∧
        env.resolvePath repo ∈ args) ∧
    (env.configFile ".bandit" = some cfg →
      ∃ cmd args, build_scan_command env "bandit" "strict" repo = .ok cmd ∧
        roundtrip cmd = some args ∧ args.head? = some "bandit" ∧
        env.resolvePath repo ∈ args) ∧
    (env.configFile "semgrep.yml" = some cfg →
      ∃ cmd args, build_scan_command env "semgrep" "loose" repo = .ok cmd ∧
        roundtrip cmd = some args ∧ args.head? = some "semgrep" ∧
        env.resolvePath repo ∈ args) ∧
    (∃ cmd args, build_scan_command env "semgrep" "strict" repo = .ok cmd ∧
        roundtrip cmd = some args ∧ args.head? = some "semgrep" ∧
        env.resolvePath repo ∈ args) := by
  refine ⟨?_, ?_, ?_, ?_⟩
  · intro hfile
    refine ⟨_, ["bandit", "-c", cfg, "-r", env.resolvePath repo], ?_,
      roundtrip_bandit cfg (env.resolvePath repo) hc hr, by simp, by simp⟩
    simp [build_scan_command, BANDIT_CONFIG_FILES, get_package_config_path,
      hfile]
  · intro hfile
    refine ⟨_, ["bandit", "-c", cfg, "-r", env.resolvePath repo], ?_,
      roundtrip_bandit cfg (env.resolvePath repo) hc hr, by simp, by simp⟩
    simp [build_scan_command, BANDIT_CONFIG_FILES, get_package_config_path,
      hfile]
  · intro hfile
    refine ⟨_, ["semgrep", "scan", env.resolvePath repo, "--verbose",
      "--config=" ++ cfg], ?_,
      roundtrip_semgrep (env.resolvePath repo) cfg hr hc, by simp, by simp⟩
    simp [build_scan_command, SEMGREP_CONFIG_FILES, get_package_config_path,
      hfile]
  · refine ⟨_, ["semgrep", "scan", env.resolvePath repo, "--verbose",
      "--config=" ++ "p/bandit"], ?_,
      roundtrip_semgrep (env.resolvePath repo) "p/bandit" hr (by decide),
      by simp, by simp⟩
    simp [build_scan_command, SEMGREP_CONFIG_FILES]

/-- Witness for C7 at a concrete input. -/
theorem C7_scanner_and_target_in_command_witness :
    demoEnv.configFile ".bandit_basic" = some "/cfg" ∧
    (∃ cmd args, build_scan_command demoEnv "bandit" "loose" "/repo" = .ok cmd ∧
      roundtrip cmd = some args ∧ args.head? = some "bandit" ∧
      demoEnv.resolvePath "/repo" ∈ args) :=
  ⟨rfl,
   (C7_scanner_and_target_in_command demoEnv "/repo" "/cfg" (by decide)
      (by decide)).1 rfl⟩

/-! ### Claim C10 -/

/-- C10: for every supported selection whose resolved target path and config
path contain no double quote and no shlex-special character, the round trip —
building the quoted command string in `build_scan_command`, then splitting it
with `shlex.split` and stripping surrounding double quotes in
`run_measurement` — recovers exactly the intended scanner argument list; and
there exist path strings (here one containing a double quote) for which the
round trip fails to recover any argument list at all. -/
theorem C10_roundtrip_quoting (env : CliEnv) (repo cfg : String)
    (hr : niceStr (env.resolvePath repo) = true) (hc : niceStr cfg = true) :
    (env.configFile ".bandit_basic" = some cfg →
      build_scan_command env "bandit" "loose" repo =
        .ok ("bandit -c \"" ++ cfg ++ "\" -r \"" ++ env.resolvePath repo ++ "\"") ∧
      roundtrip ("bandit -c \"" ++ cfg ++ "\" -r \"" ++ env.resolvePath repo ++ "\"") =
        some ["bandit", "-c", cfg, "-r", env.resolvePath repo]) ∧
    (env.configFile ".bandit" = some cfg →
      build_scan_command env "bandit" "strict" repo =
        .ok ("bandit -c \"" ++ cfg ++ "\" -r \"" ++ env.resolvePath repo ++ "\"") ∧
      roundtrip ("bandit -c \"" ++ cfg ++ "\" -r \"" ++ env.resolvePath repo ++ "\"") =
        some ["bandit", "-c", cfg, "-r", env.resolvePath repo]) ∧
    (env.configFile "semgrep.yml" = some cfg →
      build_scan_command env "semgrep" "loose" repo =
        .ok ("semgrep scan \"" ++ env.resolvePath repo ++ "\" --verbose --config=" ++ cfg) ∧
      roundtrip ("semgrep scan \"" ++ env.resolvePath repo ++ "\" --verbose --config=" ++ cfg) =
        some ["semgrep", "scan", env.resolvePath repo, "--verbose", "--config=" ++ cfg]) ∧
    (build_scan_command env "semgrep" "strict" repo =
        .ok ("semgrep scan \"" ++ env.resolvePath repo ++ "\" --verbose --config=" ++ "p/bandit") ∧
      roundtrip ("semgrep scan \"" ++ env.resolvePath repo ++ "\" --verbose --config=" ++ "p/bandit") =
        some ["semgrep", "scan", env.resolvePath repo, "--verbose", "--config=" ++ "p/bandit"]) ∧
    (∃ badPath cmd, build_scan_command demoEnv "bandit" "loose" badPath = .ok cmd ∧
      roundtrip cmd = none) := by
  refine ⟨?_, ?_, ?_, ⟨?_, roundtrip_semgrep (env.resolvePath repo) "p/bandit" hr (by decide)⟩, ?_⟩
  · intro hfile
    exact ⟨by simp [build_scan_command, BANDIT_CONFIG_FILES,
        get_package_config_path, hfile],
      roundtrip_bandit cfg (env.resolvePath repo) hc hr⟩
  · intro hfile
    exact ⟨by simp [build_scan_command, BANDIT_CONFIG_FILES,
        get_package_config_path, hfile],
      roundtrip_bandit cfg (env.resolvePath repo) hc hr⟩
  · intro hfile
    exact ⟨by simp [build_scan_command, SEMGREP_CONFIG_FILES,
        get_package_config_path, hfile],
      roundtrip_semgrep (env.resolvePath repo) cfg hr hc⟩
  · simp [build_scan_command, SEMGREP_CONFIG_FILES]
  · exact ⟨"/tmp/a\"b", "bandit -c \"/cfg\" -r \"/tmp/a\"b\"", rfl, by decide⟩

/-- Witness for C10 at a concrete input. -/
theorem C10_roundtrip_quoting_witness :
    demoEnv.configFile ".bandit_basic" = some "/cfg" ∧
    (build_scan_command demoEnv "bandit" "loose" "/repo" =
      .ok ("bandit -c \"" ++ "/cfg" ++ "\" -r \"" ++ demoEnv.resolvePath "/repo" ++ "\"") ∧
    roundtrip ("bandit -c \"" ++ "/cfg" ++ "\" -r \"" ++ demoEnv.resolvePath "/repo" ++ "\"") =
      some ["bandit", "-c", "/cfg", "-r", demoEnv.resolvePath "/repo"]) :=
  ⟨rfl, (C10_roundtrip_quoting demoEnv "/repo" "/cfg" (by decide) (by decide)).1 rfl⟩

/-! ### Claim C3 -/

/-- Counterexample to C3: the builder does NOT produce a flat argument list
built natively end-to-end — it produces a shell-quoted STRING, which the
runner must re-split with `shlex.split`.  At the concrete repo path
`/tmp/a"b` (containing a double quote) the build succeeds and returns a
command string, but re-splitting that string fails (unclosed quotation), so
the runner exits with status 1 and no argument list ever reaches
`subprocess.run` — impossible if the command had been a natively built
argument list throughout. -/
theorem C3_shell_string_counterexample :
    build_scan_command demoEnv "bandit" "loose" "/tmp/a\"b" =
      .ok "bandit -c \"/cfg\" -r \"/tmp/a\"b\"" ∧
    shlexSplit "bandit -c \"/cfg\" -r \"/tmp/a\"b\"" = none ∧
    (run_measurement "/eb" "/t" "bandit -c \"/cfg\" -r \"/tmp/a\"b\"" "bandit"
        (fun _ => .completed 0 "" "")).execArgv = none ∧
    (run_measurement "/eb" "/t" "bandit -c \"/cfg\" -r \"/tmp/a\"b\"" "bandit"
        (fun _ => .completed 0 "" "")).exitedWith = some 1 :=
  ⟨rfl, by decide, by decide, by decide⟩

/-- C3 (amended): the builder produces a shell-quoted command string; the
runner recovers an argument list from it by `shlex.split` followed by
stripping surrounding double quotes, and only the final `subprocess.run`
invocation receives a flat argument list (with `shell=False`, so no shell
interprets it).  The argument list executed for a built command is exactly
the energibridge wrapper arguments concatenated with the re-split,
quote-stripped parts of the command string — when the re-split fails, no
argument list is executed at all. -/
theorem C3_amended_string_then_resplit (env : CliEnv)
    (tool level repo scan_cmd eb tmp : String)
    (launch : List String → LaunchOutcome)
    (hbuild : build_scan_command env tool level repo = .ok scan_cmd) :
    (run_measurement eb tmp scan_cmd tool launch).execArgv =
      (shlexSplit scan_cmd).map
        (fun ps => [eb, "-o", tmp, "--summary"] ++ ps.map stripQuotes) := by
  rw [run_execArgv_eq]
  unfold run_measurement_body
  cases hs : shlexSplit scan_cmd with
  | none => simp [hs]
  | some parts =>
    simp only [hs, Option.map_some']
    cases h : launch ([eb, "-o", tmp, "--summary"] ++ parts.map stripQuotes) with
    | completed rc out err => simp only [h]; split_ifs <;> rfl
    | execNotFound => simp only [h]
    | pyException => simp only [h]

/-- Witness for the amended C3 at a concrete input. -/
theorem C3_amended_string_then_resplit_witness :
    build_scan_command demoEnv "bandit" "loose" "/repo" =
      .ok "bandit -c \"/cfg\" -r \"/repo\"" ∧
    (run_measurement "/eb" "/t" "bandit -c \"/cfg\" -r \"/repo\"" "bandit"
        (fun _ => .completed 0 "" "")).execArgv =
      (shlexSplit "bandit -c \"/cfg\" -r \"/repo\"").map
        (fun ps => ["/eb", "-o", "/t", "--summary"] ++ ps.map stripQuotes) :=
  ⟨rfl,
   C3_amended_string_then_resplit demoEnv "bandit" "loose" "/repo"
     "bandit -c \"/cfg\" -r \"/repo\"" "/eb" "/t"
     (fun _ => .completed 0 "" "") rfl⟩

/-! ### Claim C9 -/

/-- Counterexample to C9: the reporting step does not always emit the
captured line's text unchanged.  With captured stdout consisting of the
single line `  Energy consumption in joules: 12.34` (leading whitespace),
that line contains the marker, but the reporting step strips the whole
stdout before splitting it into lines, so what is emitted (and highlighted)
is `Energy consumption in joules: 12.34` — the captured line's text appears
nowhere in the report, altered or tagged. -/
theorem C9_strip_alters_line_counterexample :
    RunReport.reportedLines (run_measurement "/eb" "/t" "bandit" "bandit"
        (fun _ => .completed 0 "  Energy consumption in joules: 12.34" "")) =
      [(true, "Energy consumption in joules: 12.34")] ∧
    pySplitlines "  Energy consumption in joules: 12.34" =
      ["  Energy consumption in joules: 12.34"] ∧
    containsMarker "  Energy consumption in joules: 12.34" = true ∧
    (∀ b : Bool, ((b, "  Energy consumption in joules: 12.34") ∈
      RunReport.reportedLines (run_measurement "/eb" "/t" "bandit" "bandit"
        (fun _ => .completed 0 "  Energy consumption in joules: 12.34" ""))) =
      False) := by
  refine ⟨by decide, by decide, by decide, ?_⟩
  intro b
  simp only [eq_iff_iff, iff_false]
  cases b <;> decide

/-- C9 (amended): the reporting step first strips leading and trailing
whitespace from the whole captured stdout and splits the result into lines;
every resulting line is emitted with its text unchanged from that
stripped-and-split list, tagged highlighted exactly when it contains the
literal substring `Energy consumption in joules:` — and this holds
identically on the Success path (exit code 0) and the FindingsDetected path
(exit code 1).  Only the initial whole-stream strip can differ from the raw
captured lines, affecting leading/trailing whitespace of the first and last
line. -/
theorem C9_amended_tagging (eb tmp scan_cmd tool out err : String)
    (parts : List String) (hsplit : shlexSplit scan_cmd = some parts)
    (htool : tool = "bandit" ∨ tool = "semgrep") :
    (run_measurement eb tmp scan_cmd tool
        (fun _ => .completed 0 out err)).reportedLines =
      (pySplitlines (pyStrip out)).map (fun l => (containsMarker l, l)) ∧
    (run_measurement eb tmp scan_cmd tool
        (fun _ => .completed 1 out err)).reportedLines =
      (pySplitlines (pyStrip out)).map (fun l => (containsMarker l, l)) := by
  constructor
  · rw [run_reportedLines_eq]
    unfold run_measurement_body
    rw [hsplit]
    simp [tagLines]
  · rw [run_reportedLines_eq]
    unfold run_measurement_body
    rw [hsplit]
    rcases htool with h | h <;> subst h <;> simp [tagLines]

/-- Witness for the amended C9 at a concrete input. -/
theorem C9_amended_tagging_witness :
    RunReport.reportedLines (run_measurement "/eb" "/t" "bandit" "bandit"
        (fun _ => .completed 0 "Energy consumption in joules: 1\nok" "")) =
      (pySplitlines (pyStrip "Energy consumption in joules: 1\nok")).map
        (fun l => (containsMarker l, l)) :=
  (C9_amended_tagging "/eb" "/t" "bandit" "bandit"
    "Energy consumption in joules: 1\nok" "" ["bandit"] (by decide)
    (Or.inl rfl)).1
